import Mathlib

/-!
Shallow embedding of the clog-generator core (src/clog.py): the Email record
constructor, header cleaning, date validation, the filter engine
(check_against_filters), the classifier (validate_and_sort_emails) and the
bad-format export (export_bad_emails).

External libraries used by the source (flanker address parsing, arrow date
parsing, the Python email header decoder, and the Python builtin str.format)
are modelled as an explicit record of functions `Externals`; a Python call
that can raise is modelled as returning `Option` (none = exception).
-/

/-- A parsed arrow.Arrow date, abstracted to the fields the program uses:
its total order (`ts`, the underlying instant), its `year`, and the string
produced by date.format with pattern M/D/YY (`fmtUS`). -/
structure ArrowDate where
  ts : Int
  year : Int
  fmtUS : String
deriving DecidableEq, Repr

/-- The value of Email.date: either the parsed arrow date, or the raw input
string retained because no date grammar matched. -/
inductive DateVal where
  | raw (s : String)
  | parsed (d : ArrowDate)
deriving DecidableEq, Repr

/-- Result of flanker address.parse when it succeeds: the fields .display_name,
.address and .hostname read by Email.init. -/
structure AddrParts where
  display_name : String
  address : String
  hostname : String
deriving DecidableEq, Repr

/-- Email.filter_value holds either a string (host, address, subject) or an
integer (the year assigned by the Incorrect Year branch). -/
inductive FilterVal where
  | str (s : String)
  | int (n : Int)
deriving DecidableEq, Repr

/-- The Email object: exactly the attributes assigned in Email.init.
Note that no attribute named header is ever assigned. -/
structure Email where
  subject : String
  from_address_name : String
  from_address_email : String
  from_address_host : String
  to_address : String
  date : DateVal
  year : Option Int
  us_date : String
  valid_date : Bool
  valid_headers : Bool
  passed_filters : Option Bool
  filter_reason : Option String
  filter_value : Option FilterVal
deriving DecidableEq, Repr

/-- The filter-list mapping consumed by check_against_filters: the four keys
it reads (domains, emails, keywords, staff), each a list of strings. -/
structure Filters where
  domains : List String
  emails : List String
  keywords : List String
  staff : List String
deriving DecidableEq, Repr

/-- The external collaborators of Email.init, each fallible call modelled as
an Option-valued function (none = the Python call raised, or, for
addressParse, flanker returned None):
decodeHeader s = str(make_header(decode_header(s)));
addressParse s = flanker address.parse(s) (None on failure);
arrowGet d f = arrow.get(d, f) (raises when the grammar does not match);
strFormat s = the Python builtin s.format applied to a plain string
(raises ValueError when s contains stray braces). -/
structure Externals where
  decodeHeader : String → Option String
  addressParse : String → Option AddrParts
  arrowGet : String → String → Option ArrowDate
  strFormat : String → Option String

/-- Python regex whitespace class, on the ASCII characters the inputs use. -/
def isWs (c : Char) : Bool :=
  c = ' ' || c = '\t' || c = '\n' || c = '\r' || c = '\u000B' || c = '\u000C'

/-- State machine for re.sub applied with pattern two-or-more whitespace and
replacement a single space: a run of two or more whitespace characters
becomes one space, a lone whitespace character is kept as it is. -/
inductive WsState where
  | start
  | one (c : Char)
  | many

def collapseGo : WsState → List Char → List Char
  | .start, [] => []
  | .one w, [] => [w]
  | .many, [] => [' ']
  | .start, c :: rest =>
      if isWs c then collapseGo (.one c) rest else c :: collapseGo .start rest
  | .one w, c :: rest =>
      if isWs c then collapseGo .many rest else w :: c :: collapseGo .start rest
  | .many, c :: rest =>
      if isWs c then collapseGo .many rest else ' ' :: c :: collapseGo .start rest

/-- re.sub of runs of two or more whitespace characters by a single space,
as performed at the start of Email.clean_header. -/
def collapseWs (s : String) : String :=
  ⟨collapseGo .start s.data⟩

/-- Email.clean_header: empty (falsy) input yields the empty string without
touching the validity flag; otherwise the whitespace-collapsed input is
decoded; if the decode raises, the ORIGINAL argument (not the collapsed
form) is returned and the headers are flagged invalid. The returned Bool is
the contribution to valid_headers (false exactly when the except path ran). -/
def clean_header (ext : Externals) (header : String) : String × Bool :=
  if header = "" then ("", true)
  else
    match ext.decodeHeader (collapseWs header) with
    | some s => (s, true)
    | none => (header, false)

/-- The ordered grammar list of Email.validate_date, verbatim. -/
def dateFormats : List String :=
  [ "ddd,[\\s+]D[\\s+]MMM[\\s+]YYYY[\\s+]H:mm:ss[\\s+]Z"
  , "ddd,[\\s+]D[\\s+]MMM[\\s+]YYYY[\\s+]H:mm:ss[\\s+]ZZZ"
  , "ddd,[\\s+]D[\\s+]MMM[\\s+]YYYY[\\s+]H:mm:ss[\\s+]"
  , "ddd,[\\s+]DD[\\s+]MMM[\\s+]YYYY[\\s+]HH:mm:ss"
  , "ddd[\\s+]D[\\s+]MMM[\\s+]YYYY[\\s+]H:mm:ss[\\s+]Z"
  , "D[\\s+]MMM[\\s+]YYYY[\\s+]HH:mm:ss[\\s+]Z"
  , "ddd,[\\s+]D[\\s+]MMM[\\s+]YYYY[\\s+]H:mm[\\s+]Z"
  , "MM/D/YY,[\\s+]H[\\s+]mm[.*]"
  , "M/D/YY,[\\s+]H:m"
  , "DD[\\s+]MMM[\\s+]YYYY[\\s+]HH:mm:ss"
  , "MM/DD/YY,[\\s+]mm[\\s+]HH[\\s+]YYYY[.*]" ]

/-- The loop of Email.validate_date: try each grammar in order, keep the
result of the first call to arrow.get that does not raise. -/
def tryFormats (get : String → Option ArrowDate) : List String → Option ArrowDate
  | [] => none
  | f :: rest =>
    match get f with
    | some d => some d
    | none => tryFormats get rest

/-- Email.validate_date: first matching grammar wins; when none matches the
raw string is returned and the date flagged invalid. The Bool is the
resulting valid_date flag. -/
def validate_date (ext : Externals) (date : String) : DateVal × Bool :=
  match tryFormats (ext.arrowGet date) dateFormats with
  | some d => (.parsed d, true)
  | none => (.raw date, false)

/-- Email.find_year: the year of a parsed arrow date, None otherwise. -/
def find_year : DateVal → Option Int
  | .parsed d => some d.year
  | .raw _ => none

/-- self.date.format with pattern M/D/YY: on a parsed arrow date this is its
formatted string; on a retained raw string it is the Python builtin
str.format, which can raise on stray braces. -/
def usDateOf (ext : Externals) : DateVal → Option String
  | .parsed d => some d.fmtUS
  | .raw s => ext.strFormat s

/-- Email.init, in source order: clean the From header, parse it with
flanker (attribute access on a None parse result raises, hence none),
clean To and Subject, validate the date, derive year and us_date
(str.format on a raw date can raise, hence none). The three filter-outcome
fields start as None. -/
def mkEmail (ext : Externals) (subject frm toAddr date : String) : Option Email :=
  let fromC := clean_header ext frm
  match ext.addressParse fromC.1 with
  | none => none
  | some parts =>
    let toC := clean_header ext toAddr
    let subjC := clean_header ext subject
    let dateV := validate_date ext date
    match usDateOf ext dateV.1 with
    | none => none
    | some us =>
      some
        { subject := subjC.1
          from_address_name := parts.display_name
          from_address_email := parts.address
          from_address_host := parts.hostname
          to_address := toC.1
          date := dateV.1
          year := find_year dateV.1
          us_date := us
          valid_date := dateV.2
          valid_headers := fromC.2 && toC.2 && subjC.2
          passed_filters := none
          filter_reason := none
          filter_value := none }

/-- Python substring membership k in s, on character lists. -/
def listSubstr (k : List Char) : List Char → Bool
  | [] => k.isEmpty
  | c :: rest => k.isPrefixOf (c :: rest) || listSubstr k rest

/-- Python substring test: keyword occurs in subject. -/
def strContains (s k : String) : Bool :=
  listSubstr k.data s.data

/-- check_against_filters: the if/elif chain over domains, staff, emails and
subject keywords, first match wins; on no match only passed_filters is set
to True (reason and value are left as they were). -/
def check_against_filters (email : Email) (filters : Filters) : Email :=
  if email.from_address_host ∈ filters.domains then
    { email with
        passed_filters := some false
        filter_reason := some "Domain in filter list"
        filter_value := some (.str email.from_address_host) }
  else if email.from_address_email ∈ filters.staff then
    { email with
        passed_filters := some false
        filter_reason := some "Staff"
        filter_value := some (.str email.from_address_email) }
  else if email.from_address_email ∈ filters.emails then
    { email with
        passed_filters := some false
        filter_reason := some "Email address in filter list"
        filter_value := some (.str email.from_address_email) }
  else if filters.keywords.any (fun k => strContains email.subject k) then
    { email with
        passed_filters := some false
        filter_reason := some "Subject contains keyword in filter list"
        filter_value := some (.str email.subject) }
  else
    { email with passed_filters := some true }

/-- The mutation performed by the Incorrect Year branch of the classifier
loop (validate_and_sort_emails lines 180 to 182). -/
def incorrectYearMark (email : Email) : Email :=
  { email with
      passed_filters := some false
      filter_reason := some "Incorrect Year"
      filter_value := email.year.map FilterVal.int }

/-- The per-email loop of validate_and_sort_emails: appends each email to
exactly one of (valid, bad_formats, filtered), in encounter order. `en` is
the truthiness of the filters argument. -/
def classifyLoop (year : Option Int) (en : Bool) :
    List Email → List Email × List Email × List Email
  | [] => ([], [], [])
  | e :: rest =>
    let out := classifyLoop year en rest
    if !e.valid_date || !e.valid_headers then
      (out.1, e :: out.2.1, out.2.2)
    else if e.year ≠ year then
      (out.1, out.2.1, incorrectYearMark e :: out.2.2)
    else if en && !(e.passed_filters = some true : Bool) then
      (out.1, out.2.1, e :: out.2.2)
    else
      (e :: out.1, out.2.1, out.2.2)

/-- Sort key used by the source: sorted(key=lambda x: x.date). Arrow dates
compare by instant; a retained raw string never reaches a sorted bucket, so
its key value (0) is irrelevant. -/
def dateKey (e : Email) : Int :=
  match e.date with
  | .parsed d => d.ts
  | .raw _ => 0

def insertSorted (e : Email) : List Email → List Email
  | [] => [e]
  | x :: xs =>
    if dateKey e ≤ dateKey x then e :: x :: xs else x :: insertSorted e xs

/-- Stable ascending sort by parsed date, modelling the Python builtin
sorted with key x.date (Python sorting is stable, so any stable sort by the
same total key produces the same list). -/
def sortByDate : List Email → List Email
  | [] => []
  | e :: xs => insertSorted e (sortByDate xs)

/-- The predicate of the staff and incorrect-year suppression list
comprehension: keep an email when its reason is neither Staff nor
Incorrect Year. -/
def keepInExport (e : Email) : Bool :=
  !(e.filter_reason = some "Staff" : Bool) &&
    !(e.filter_reason = some "Incorrect Year" : Bool)

/-- validate_and_sort_emails: when filters are truthy, every email is run
through check_against_filters; the loop partitions into the three buckets;
when filters are truthy the filtered bucket is purged of Staff and
Incorrect Year reasons and sorted by date; the valid bucket is always
sorted by date. Returns (valid, bad_formats, filtered). -/
def validate_and_sort_emails (emails : List Email) (year : Option Int)
    (filters : Option Filters) : List Email × List Email × List Email :=
  let emails :=
    match filters with
    | some f => emails.map (fun e => check_against_filters e f)
    | none => emails
  let out := classifyLoop year filters.isSome emails
  let filtered :=
    match filters with
    | some _ => sortByDate (out.2.2.filter keepInExport)
    | none => out.2.2
  (sortByDate out.1, out.2.1, filtered)

/-- One row of the bad-format export: the literal reason cell and the data
cell holding the date value of the record. -/
structure BadRow where
  reason : String
  data : DateVal
deriving DecidableEq, Repr

/-- The per-email body of export_bad_emails: a row with the raw date when
the date is invalid; when the headers are invalid the source then reads
email.header, an attribute that Email.init never assigns, so the access
raises AttributeError (modelled as none). -/
def badRowsOf (e : Email) : Option (List BadRow) :=
  let dateRows := if e.valid_date then [] else [⟨"Incorrect Date Format", e.date⟩]
  if e.valid_headers then some dateRows else none

/-- export_bad_emails: the rows accumulated over the bucket in order, or
none when any record with invalid headers makes the loop raise. -/
def export_bad_emails : List Email → Option (List BadRow)
  | [] => some []
  | e :: rest =>
    match badRowsOf e with
    | none => none
    | some rs => (export_bad_emails rest).map (fun more => rs ++ more)

/-! Helper lemmas about the sorting and classification definitions. -/

theorem mem_insertSorted {x e : Email} {l : List Email} :
    x ∈ insertSorted e l ↔ x = e ∨ x ∈ l := by
  induction l with
  | nil => simp [insertSorted]
  | cons y ys ih =>
    by_cases h : dateKey e ≤ dateKey y
    · simp [insertSorted, h]
    · simp only [insertSorted, if_neg h, List.mem_cons, ih]
      tauto

theorem mem_sortByDate {x : Email} {l : List Email} :
    x ∈ sortByDate l ↔ x ∈ l := by
  induction l with
  | nil => simp [sortByDate]
  | cons e xs ih => simp [sortByDate, mem_insertSorted, ih]

theorem pairwise_insertSorted {e : Email} {l : List Email}
    (h : l.Pairwise (fun a b => dateKey a ≤ dateKey b)) :
    (insertSorted e l).Pairwise (fun a b => dateKey a ≤ dateKey b) := by
  induction l with
  | nil => simp [insertSorted]
  | cons y ys ih =>
    rcases List.pairwise_cons.mp h with ⟨hy, hys⟩
    by_cases hle : dateKey e ≤ dateKey y
    · rw [insertSorted, if_pos hle]
      refine List.pairwise_cons.mpr ⟨?_, h⟩
      intro b hb
      rcases List.mem_cons.mp hb with rfl | hb
      · exact hle
      · exact le_trans hle (hy b hb)
    · rw [insertSorted, if_neg hle]
      refine List.pairwise_cons.mpr ⟨?_, ih hys⟩
      intro b hb
      rcases mem_insertSorted.mp hb with rfl | hb
      · omega
      · exact hy b hb

theorem sorted_sortByDate (l : List Email) :
    (sortByDate l).Pairwise (fun a b => dateKey a ≤ dateKey b) := by
  induction l with
  | nil => simp [sortByDate]
  | cons e xs ih => exact pairwise_insertSorted ih

theorem classifyLoop_append (year : Option Int) (en : Bool) (a b : List Email) :
    classifyLoop year en (a ++ b) =
      ((classifyLoop year en a).1 ++ (classifyLoop year en b).1,
       (classifyLoop year en a).2.1 ++ (classifyLoop year en b).2.1,
       (classifyLoop year en a).2.2 ++ (classifyLoop year en b).2.2) := by
  induction a with
  | nil => simp [classifyLoop]
  | cons e rest ih =>
    simp only [List.cons_append, classifyLoop, List.append_eq, ih]
    split
    · rfl
    · split
      · rfl
      · split <;> rfl

theorem classifyLoop_bad_eq_filter (year : Option Int) (en : Bool) (l : List Email) :
    (classifyLoop year en l).2.1 =
      l.filter (fun e => !e.valid_date || !e.valid_headers) := by
  induction l with
  | nil => rfl
  | cons e rest ih =>
    cases hb : (!e.valid_date || !e.valid_headers) with
    | true => simp [classifyLoop, hb, ih]
    | false =>
      simp only [classifyLoop, hb, Bool.false_eq_true, if_false, List.filter_cons]
      split <;> (try split) <;> simp [ih]

theorem classifyLoop_lengths (year : Option Int) (en : Bool) (l : List Email) :
    (classifyLoop year en l).1.length + (classifyLoop year en l).2.1.length +
      (classifyLoop year en l).2.2.length = l.length := by
  induction l with
  | nil => rfl
  | cons e rest ih =>
    simp only [classifyLoop, List.length_cons]
    split <;> (try split) <;> (try split) <;> simp <;> omega

theorem tryFormats_first {get : String → Option ArrowDate} {l1 : List String}
    {fmt : String} {l2 : List String} {d : ArrowDate}
    (h1 : ∀ g ∈ l1, get g = none) (h2 : get fmt = some d) :
    tryFormats get (l1 ++ fmt :: l2) = some d := by
  induction l1 with
  | nil => simp [tryFormats, h2]
  | cons g gs ih =>
    have hg : get g = none := h1 g (by simp)
    simp only [List.cons_append, tryFormats, hg]
    exact ih (fun x hx => h1 x (List.mem_cons_of_mem _ hx))

theorem tryFormats_none {get : String → Option ArrowDate} {l : List String}
    (h : ∀ g ∈ l, get g = none) : tryFormats get l = none := by
  induction l with
  | nil => rfl
  | cons g gs ih =>
    have hg : get g = none := h g (by simp)
    simp only [tryFormats, hg]
    exact ih (fun x hx => h x (List.mem_cons_of_mem _ hx))

/-- The two possible shapes of a validate_date result. -/
theorem validate_date_cases (ext : Externals) (d : String) :
    (∃ ad, validate_date ext d = (DateVal.parsed ad, true)) ∨
      validate_date ext d = (DateVal.raw d, false) := by
  unfold validate_date
  cases tryFormats (ext.arrowGet d) dateFormats with
  | none => exact Or.inr rfl
  | some ad => exact Or.inl ⟨ad, rfl⟩

/-! Concrete fixtures used by witnesses and counterexamples. -/

/-- A sample parsed arrow date. -/
def adSample : ArrowDate := ⟨100, 2023, "1/2/23"⟩

/-- A fully valid sample record from the year 2023. -/
def baseEmail : Email :=
  { subject := "Hello"
    from_address_name := "Alice"
    from_address_email := "alice@bad.com"
    from_address_host := "bad.com"
    to_address := "bob@x.com"
    date := .parsed adSample
    year := some 2023
    us_date := "1/2/23"
    valid_date := true
    valid_headers := true
    passed_filters := none
    filter_reason := none
    filter_value := none }

/-- External collaborators behaving as the real libraries do on the inputs
used below: header decoding succeeds and is the identity there, flanker
returns None on the empty string, no date grammar matches, and the Python
str.format of a brace-free string is the string itself. -/
def extFlankerEmpty : Externals :=
  { decodeHeader := fun s => some s
    addressParse := fun s =>
      if s = "" then none else some ⟨"Alice", "alice@x.com", "x.com"⟩
    arrowGet := fun _ _ => none
    strFormat := fun s => some s }

/-- External collaborators on which every fallible call fails. -/
def extDecodeFail : Externals :=
  { decodeHeader := fun _ => none
    addressParse := fun _ => none
    arrowGet := fun _ _ => none
    strFormat := fun _ => none }

/-- Filter lists with one staff address and nothing else. -/
def staffFilters : Filters :=
  { domains := [], emails := [], keywords := [], staff := ["alice@bad.com"] }

/-- Filter lists in which the sample sender matches both the domain and the
email block-list. -/
def filtersBoth : Filters :=
  { domains := ["bad.com"], emails := ["alice@bad.com"], keywords := ["win"]
    staff := [] }

/-! The claims. -/

/-- C10: filter evaluation returns the record it was given with only the
three filter-outcome fields possibly changed; the subject, the sender
parts, to, date, year, localized date and both validity flags are
unchanged. -/
theorem c10_filter_evaluation_frame (e : Email) (f : Filters) :
    (check_against_filters e f).subject = e.subject ∧
    (check_against_filters e f).from_address_name = e.from_address_name ∧
    (check_against_filters e f).from_address_email = e.from_address_email ∧
    (check_against_filters e f).from_address_host = e.from_address_host ∧
    (check_against_filters e f).to_address = e.to_address ∧
    (check_against_filters e f).date = e.date ∧
    (check_against_filters e f).year = e.year ∧
    (check_against_filters e f).us_date = e.us_date ∧
    (check_against_filters e f).valid_date = e.valid_date ∧
    (check_against_filters e f).valid_headers = e.valid_headers := by
  unfold check_against_filters
  split <;> (try split) <;> (try split) <;> (try split) <;> simp

/-- C4: the filter checks run in strict priority order with short-circuit,
domains before staff before emails before subject keywords; in particular a
record whose host is in domains and whose email is also in emails gets the
domain reason with the host as value, never the email reason. -/
theorem c4_filter_priority (e : Email) (f : Filters) :
    (e.from_address_host ∈ f.domains →
       check_against_filters e f =
         { e with passed_filters := some false
                  filter_reason := some "Domain in filter list"
                  filter_value := some (.str e.from_address_host) }) ∧
    (e.from_address_host ∉ f.domains → e.from_address_email ∈ f.staff →
       check_against_filters e f =
         { e with passed_filters := some false
                  filter_reason := some "Staff"
                  filter_value := some (.str e.from_address_email) }) ∧
    (e.from_address_host ∉ f.domains → e.from_address_email ∉ f.staff →
       e.from_address_email ∈ f.emails →
       check_against_filters e f =
         { e with passed_filters := some false
                  filter_reason := some "Email address in filter list"
                  filter_value := some (.str e.from_address_email) }) ∧
    (e.from_address_host ∉ f.domains → e.from_address_email ∉ f.staff →
       e.from_address_email ∉ f.emails →
       f.keywords.any (fun k => strContains e.subject k) = true →
       check_against_filters e f =
         { e with passed_filters := some false
                  filter_reason := some "Subject contains keyword in filter list"
                  filter_value := some (.str e.subject) }) ∧
    (e.from_address_host ∉ f.domains → e.from_address_email ∉ f.staff →
       e.from_address_email ∉ f.emails →
       f.keywords.any (fun k => strContains e.subject k) = false →
       check_against_filters e f = { e with passed_filters := some true }) ∧
    (e.from_address_host ∈ f.domains → e.from_address_email ∈ f.emails →
       (check_against_filters e f).filter_reason = some "Domain in filter list" ∧
       (check_against_filters e f).filter_value = some (.str e.from_address_host)) := by
  refine ⟨fun h1 => ?_, fun h1 h2 => ?_, fun h1 h2 h3 => ?_,
    fun h1 h2 h3 h4 => ?_, fun h1 h2 h3 h4 => ?_, fun h1 _ => ?_⟩ <;>
    simp [check_against_filters, *]

/-- C4 witness at a concrete record matching both domains and emails. -/
theorem c4_filter_priority_witness :
    check_against_filters baseEmail filtersBoth =
      { baseEmail with passed_filters := some false
                       filter_reason := some "Domain in filter list"
                       filter_value := some (.str baseEmail.from_address_host) } ∧
    ((check_against_filters baseEmail filtersBoth).filter_reason =
        some "Domain in filter list" ∧
     (check_against_filters baseEmail filtersBoth).filter_value =
        some (.str baseEmail.from_address_host)) :=
  ⟨(c4_filter_priority baseEmail filtersBoth).1 (by decide),
   (c4_filter_priority baseEmail filtersBoth).2.2.2.2.2 (by decide) (by decide)⟩

/-- C1: the claim says construction never raises and an unparseable From
address degrades to a flagged record; the code instead reads .address off
the None that flanker address.parse returns for an unparseable (here empty)
From header, raising AttributeError. Evaluation of the model at the failing
input yields none (an exception), not a flagged record. -/
theorem c1_empty_from_raises :
    mkEmail extFlankerEmpty "Subject" "" "bob@x.com"
      "Mon, 2 Jan 2023 10:00:00 +0000" = none := by
  rfl

/-- C3: the claim says the bad-format export emits an Incorrect Header
Format row and never fails; the code reads email.header, an attribute that
Email.init never assigns, so any record with invalid headers raises
AttributeError (none here). A record whose only problem is its date does
produce exactly the claimed date row. -/
theorem c3_bad_export_raises :
    export_bad_emails [{ baseEmail with valid_headers := false }] = none ∧
    export_bad_emails
        [{ baseEmail with valid_date := false, date := .raw "Tue 32 Foo",
                          year := none }] =
      some [⟨"Incorrect Date Format", DateVal.raw "Tue 32 Foo"⟩] := by
  constructor <;> rfl

/-- C9 counterexample: on a decode failure clean_header returns the raw
original argument, not the whitespace-collapsed form the claim promises;
at input with a double space the two differ. -/
theorem c9_counterexample :
    clean_header extDecodeFail "a  b" = ("a  b", false) ∧
    clean_header extDecodeFail "a  b" ≠ (collapseWs "a  b", false) ∧
    collapseWs "a  b" = "a b" := by
  refine ⟨rfl, ?_, rfl⟩
  decide

/-- C9 amended: the header decoder never raises; for empty input it returns
the empty string with ok true; on a successful decode it returns the
decoded text with ok true; on a decoding failure it returns the original
raw (uncollapsed) argument with ok false. -/
theorem c9_clean_header_amended (ext : Externals) (h : String) :
    (h = "" → clean_header ext h = ("", true)) ∧
    (h ≠ "" → ∀ s, ext.decodeHeader (collapseWs h) = some s →
       clean_header ext h = (s, true)) ∧
    (h ≠ "" → ext.decodeHeader (collapseWs h) = none →
       clean_header ext h = (h, false)) := by
  refine ⟨fun h0 => ?_, fun hne s hs => ?_, fun hne hn => ?_⟩ <;>
    simp [clean_header, *]

/-- C9 witness: the amended statement evaluated at concrete inputs. -/
theorem c9_clean_header_amended_witness :
    clean_header extDecodeFail "" = ("", true) ∧
    clean_header extDecodeFail "xy" = ("xy", false) :=
  ⟨(c9_clean_header_amended extDecodeFail "").1 rfl,
   (c9_clean_header_amended extDecodeFail "xy").2.2 (by decide) rfl⟩

/-- C2: the classifier applies the exact precedence bad-format, then wrong
year (with synthetic reason Incorrect Year and the actual year as value,
overriding any earlier verdict), then failed filter verdict when filtering
is enabled, then valid; and every record lands in exactly one bucket. -/
theorem c2_classifier_precedence (year : Option Int) (en : Bool) (e : Email)
    (l : List Email) :
    (¬(e.valid_date = true ∧ e.valid_headers = true) →
       classifyLoop year en (e :: l) =
         ((classifyLoop year en l).1, e :: (classifyLoop year en l).2.1,
          (classifyLoop year en l).2.2)) ∧
    (e.valid_date = true → e.valid_headers = true → e.year ≠ year →
       classifyLoop year en (e :: l) =
         ((classifyLoop year en l).1, (classifyLoop year en l).2.1,
          incorrectYearMark e :: (classifyLoop year en l).2.2) ∧
       (incorrectYearMark e).filter_reason = some "Incorrect Year" ∧
       (incorrectYearMark e).filter_value = e.year.map FilterVal.int ∧
       (incorrectYearMark e).passed_filters = some false) ∧
    (e.valid_date = true → e.valid_headers = true → e.year = year →
       en = true → e.passed_filters = some false →
       classifyLoop year en (e :: l) =
         ((classifyLoop year en l).1, (classifyLoop year en l).2.1,
          e :: (classifyLoop year en l).2.2)) ∧
    (e.valid_date = true → e.valid_headers = true → e.year = year →
       (en = false ∨ e.passed_filters = some true) →
       classifyLoop year en (e :: l) =
         (e :: (classifyLoop year en l).1, (classifyLoop year en l).2.1,
          (classifyLoop year en l).2.2)) ∧
    ((classifyLoop year en (e :: l)).1.length +
       (classifyLoop year en (e :: l)).2.1.length +
       (classifyLoop year en (e :: l)).2.2.length = (e :: l).length) := by
  refine ⟨fun hb => ?_, fun hvd hvh hy => ?_, fun hvd hvh hy hen hp => ?_,
    fun hvd hvh hy hor => ?_, classifyLoop_lengths year en (e :: l)⟩
  · have hb2 : (!e.valid_date || !e.valid_headers) = true := by
      revert hb; cases e.valid_date <;> cases e.valid_headers <;> simp
    simp [classifyLoop, hb2]
  · refine ⟨?_, rfl, rfl, rfl⟩
    simp [classifyLoop, hvd, hvh, hy]
  · simp [classifyLoop, hvd, hvh, hy, hen, hp]
  · rcases hor with hen | hp
    · simp [classifyLoop, hvd, hvh, hy, hen]
    · simp [classifyLoop, hvd, hvh, hy, hp]

/-- C2 witness: the four precedence branches at concrete records (an
invalid-date record, a wrong-year record, a failed-filter record and a
passing record), with the year filter 2023 and filtering enabled. -/
theorem c2_classifier_precedence_witness :
    (classifyLoop (some 2023) true ({ baseEmail with valid_date := false } :: []) =
       ((classifyLoop (some 2023) true []).1,
        { baseEmail with valid_date := false } :: (classifyLoop (some 2023) true []).2.1,
        (classifyLoop (some 2023) true []).2.2)) ∧
    (classifyLoop (some 2023) true ({ baseEmail with year := some 2022 } :: []) =
       ((classifyLoop (some 2023) true []).1, (classifyLoop (some 2023) true []).2.1,
        incorrectYearMark { baseEmail with year := some 2022 } ::
          (classifyLoop (some 2023) true []).2.2) ∧
     (incorrectYearMark { baseEmail with year := some 2022 }).filter_reason =
       some "Incorrect Year" ∧
     (incorrectYearMark { baseEmail with year := some 2022 }).filter_value =
       (some (2022 : Int)).map FilterVal.int ∧
     (incorrectYearMark { baseEmail with year := some 2022 }).passed_filters =
       some false) ∧
    (classifyLoop (some 2023) true ({ baseEmail with passed_filters := some false } :: []) =
       ((classifyLoop (some 2023) true []).1, (classifyLoop (some 2023) true []).2.1,
        { baseEmail with passed_filters := some false } ::
          (classifyLoop (some 2023) true []).2.2)) ∧
    (classifyLoop (some 2023) true ({ baseEmail with passed_filters := some true } :: []) =
       ({ baseEmail with passed_filters := some true } ::
          (classifyLoop (some 2023) true []).1,
        (classifyLoop (some 2023) true []).2.1,
        (classifyLoop (some 2023) true []).2.2)) :=
  ⟨(c2_classifier_precedence (some 2023) true _ []).1 (by decide),
   (c2_classifier_precedence (some 2023) true _ []).2.1 rfl rfl (by decide),
   (c2_classifier_precedence (some 2023) true _ []).2.2.1 rfl rfl rfl rfl rfl,
   (c2_classifier_precedence (some 2023) true _ []).2.2.2.1 rfl rfl rfl
     (Or.inr rfl)⟩

/-- C7: for every successfully constructed record, valid_date is false
exactly when the date field is the raw input string unchanged and the year
is None; when valid_date is true the date is a parsed value and the year is
derived from it. -/
theorem c7_date_validity_iff (ext : Externals) (s f t d : String) (e : Email)
    (h : mkEmail ext s f t d = some e) :
    (e.valid_date = false ↔ (e.date = DateVal.raw d ∧ e.year = none)) ∧
    (e.valid_date = true →
       ∃ ad, e.date = DateVal.parsed ad ∧ e.year = some ad.year) := by
  simp only [mkEmail] at h
  rcases hap : ext.addressParse (clean_header ext f).1 with _ | parts <;>
    rw [hap] at h
  · cases h
  · rcases husd : usDateOf ext (validate_date ext d).1 with _ | us <;>
      rw [husd] at h
    · cases h
    · simp only [Option.some.injEq] at h
      subst h
      rcases validate_date_cases ext d with ⟨ad, hv⟩ | hv <;>
        simp [hv, find_year]

/-- The record mkEmail builds from the sample externals on an unparseable
date input. -/
def eC7 : Email :=
  { subject := "Su"
    from_address_name := "Alice"
    from_address_email := "alice@x.com"
    from_address_host := "x.com"
    to_address := "to"
    date := .raw "da"
    year := none
    us_date := "da"
    valid_date := false
    valid_headers := true
    passed_filters := none
    filter_reason := none
    filter_value := none }

/-- C7 witness: the record built from unparseable date input by the sample
externals, with the construction hypothesis discharged by evaluation. -/
theorem c7_date_validity_iff_witness :
    (eC7.valid_date = false ↔ (eC7.date = DateVal.raw "da" ∧ eC7.year = none)) ∧
    (eC7.valid_date = true →
       ∃ ad, eC7.date = DateVal.parsed ad ∧ eC7.year = some ad.year) :=
  c7_date_validity_iff extFlankerEmpty "Su" "fr" "to" "da" eC7 (by decide)

/-- C8: the date parser tries the fixed grammar list in order and returns
the result of the first grammar that parses (a string matching an earlier
and a later grammar is parsed by the earlier one), and when no grammar
matches it yields no parsed value, the raw string being retained with the
date flagged invalid. -/
theorem c8_first_grammar_wins (ext : Externals) (d : String)
    (l1 l2 : List String) (fmt : String) (ad : ArrowDate) :
    (dateFormats = l1 ++ fmt :: l2 → (∀ g ∈ l1, ext.arrowGet d g = none) →
       ext.arrowGet d fmt = some ad →
       validate_date ext d = (DateVal.parsed ad, true)) ∧
    ((∀ g ∈ dateFormats, ext.arrowGet d g = none) →
       validate_date ext d = (DateVal.raw d, false)) := by
  constructor
  · intro hsplit h1 h2
    unfold validate_date
    rw [hsplit, tryFormats_first h1 h2]
  · intro hall
    unfold validate_date
    rw [tryFormats_none hall]

/-- Externals whose arrow.get succeeds exactly on the second grammar of the
list (and on every input string). -/
def extSecondGrammar : Externals :=
  { decodeHeader := fun s => some s
    addressParse := fun _ => none
    arrowGet := fun _ g =>
      if g = "ddd,[\\s+]D[\\s+]MMM[\\s+]YYYY[\\s+]H:mm:ss[\\s+]ZZZ" then
        some adSample
      else none
    strFormat := fun s => some s }

/-- C8 witness: a date matching the second grammar but none before it is
parsed by that grammar; a date matching no grammar is kept raw and flagged
invalid. -/
theorem c8_first_grammar_wins_witness :
    validate_date extSecondGrammar "x" = (DateVal.parsed adSample, true) ∧
    validate_date extDecodeFail "y" = (DateVal.raw "y", false) :=
  ⟨(c8_first_grammar_wins extSecondGrammar "x"
      ["ddd,[\\s+]D[\\s+]MMM[\\s+]YYYY[\\s+]H:mm:ss[\\s+]Z"]
      [ "ddd,[\\s+]D[\\s+]MMM[\\s+]YYYY[\\s+]H:mm:ss[\\s+]"
      , "ddd,[\\s+]DD[\\s+]MMM[\\s+]YYYY[\\s+]HH:mm:ss"
      , "ddd[\\s+]D[\\s+]MMM[\\s+]YYYY[\\s+]H:mm:ss[\\s+]Z"
      , "D[\\s+]MMM[\\s+]YYYY[\\s+]HH:mm:ss[\\s+]Z"
      , "ddd,[\\s+]D[\\s+]MMM[\\s+]YYYY[\\s+]H:mm[\\s+]Z"
      , "MM/D/YY,[\\s+]H[\\s+]mm[.*]"
      , "M/D/YY,[\\s+]H:m"
      , "DD[\\s+]MMM[\\s+]YYYY[\\s+]HH:mm:ss"
      , "MM/DD/YY,[\\s+]mm[\\s+]HH[\\s+]YYYY[.*]" ]
      "ddd,[\\s+]D[\\s+]MMM[\\s+]YYYY[\\s+]H:mm:ss[\\s+]ZZZ" adSample).1
      rfl (by decide) (by decide),
   (c8_first_grammar_wins extDecodeFail "y" [] [] "" adSample).2 (by decide)⟩

/-- A staff-matching record whose date failed to parse. -/
def eStaffBadDate : Email :=
  { baseEmail with valid_date := false, date := .raw "zzz", year := none }

/-- C5 counterexample: a staff record with an invalid date receives the
Staff verdict, yet the classifier routes it to the bad_formats bucket, so
it is not counted as filtered; the filtered bucket stays empty. -/
theorem c5_counterexample :
    (check_against_filters eStaffBadDate staffFilters).filter_reason =
      some "Staff" ∧
    (check_against_filters eStaffBadDate staffFilters).passed_filters =
      some false ∧
    (validate_and_sort_emails [eStaffBadDate] (some 2023)
      (some staffFilters)).2.2 = [] ∧
    (validate_and_sort_emails [eStaffBadDate] (some 2023)
      (some staffFilters)).2.1 =
      [check_against_filters eStaffBadDate staffFilters] := by
  decide

/-- C5 amended: for a record with valid date and headers whose sender email
is in staff and whose host is not in domains, filter evaluation yields the
FAILED verdict with reason Staff and the sender email as value; the record
lands in the filtered bucket of the classification loop (counted as
filtered), and the exported filtered list never contains a Staff reason. -/
theorem c5_staff_exemption (e : Email) (flt : Filters) (yr : Option Int)
    (l1 l2 : List Email)
    (hd : e.from_address_host ∉ flt.domains)
    (hs : e.from_address_email ∈ flt.staff)
    (hvd : e.valid_date = true) (hvh : e.valid_headers = true) :
    ((check_against_filters e flt).passed_filters = some false ∧
     (check_against_filters e flt).filter_reason = some "Staff" ∧
     (check_against_filters e flt).filter_value =
       some (.str e.from_address_email)) ∧
    (if e.year = yr then check_against_filters e flt
       else incorrectYearMark (check_against_filters e flt)) ∈
      (classifyLoop yr true
        ((l1 ++ e :: l2).map (fun x => check_against_filters x flt))).2.2 ∧
    (∀ x ∈ (validate_and_sort_emails (l1 ++ e :: l2) yr (some flt)).2.2,
       x.filter_reason ≠ some "Staff") := by
  have hce : check_against_filters e flt =
      { e with passed_filters := some false
               filter_reason := some "Staff"
               filter_value := some (.str e.from_address_email) } := by
    simp [check_against_filters, hd, hs]
  have hvdc : (check_against_filters e flt).valid_date = true := by
    rw [hce]; exact hvd
  have hvhc : (check_against_filters e flt).valid_headers = true := by
    rw [hce]; exact hvh
  have hyc : (check_against_filters e flt).year = e.year := by rw [hce]
  have hpc : (check_against_filters e flt).passed_filters = some false := by
    rw [hce]
  refine ⟨by rw [hce]; exact ⟨rfl, rfl, rfl⟩, ?_, ?_⟩
  · rw [List.map_append, List.map_cons, classifyLoop_append]
    by_cases hyy : e.year = yr
    · rw [if_pos hyy]
      have hstep :
          classifyLoop yr true
            (check_against_filters e flt ::
              l2.map (fun x => check_against_filters x flt)) =
          ((classifyLoop yr true
              (l2.map (fun x => check_against_filters x flt))).1,
           (classifyLoop yr true
              (l2.map (fun x => check_against_filters x flt))).2.1,
           check_against_filters e flt ::
             (classifyLoop yr true
               (l2.map (fun x => check_against_filters x flt))).2.2) := by
        simp [classifyLoop, hvdc, hvhc, hyc, hyy, hpc]
      rw [hstep]
      exact List.mem_append_right _ (List.mem_cons_self _ _)
    · rw [if_neg hyy]
      have hstep :
          classifyLoop yr true
            (check_against_filters e flt ::
              l2.map (fun x => check_against_filters x flt)) =
          ((classifyLoop yr true
              (l2.map (fun x => check_against_filters x flt))).1,
           (classifyLoop yr true
              (l2.map (fun x => check_against_filters x flt))).2.1,
           incorrectYearMark (check_against_filters e flt) ::
             (classifyLoop yr true
               (l2.map (fun x => check_against_filters x flt))).2.2) := by
        simp [classifyLoop, hvdc, hvhc, hyc, hyy, hpc]
      rw [hstep]
      exact List.mem_append_right _ (List.mem_cons_self _ _)
  · intro x hx
    simp only [validate_and_sort_emails, Option.isSome_some] at hx
    rw [mem_sortByDate] at hx
    have hk := (List.mem_filter.mp hx).2
    simp only [keepInExport, Bool.and_eq_true, Bool.not_eq_eq_eq_not,
      Bool.not_true, decide_eq_false_iff_not] at hk
    exact hk.1

/-- C5 witness: the amended statement at the concrete staff record. -/
theorem c5_staff_exemption_witness :
    ((check_against_filters baseEmail staffFilters).passed_filters =
        some false ∧
     (check_against_filters baseEmail staffFilters).filter_reason =
        some "Staff" ∧
     (check_against_filters baseEmail staffFilters).filter_value =
        some (.str baseEmail.from_address_email)) ∧
    (if baseEmail.year = some 2023 then
        check_against_filters baseEmail staffFilters
      else incorrectYearMark (check_against_filters baseEmail staffFilters)) ∈
      (classifyLoop (some 2023) true
        (([] ++ baseEmail :: []).map
          (fun x => check_against_filters x staffFilters))).2.2 ∧
    (∀ x ∈ (validate_and_sort_emails ([] ++ baseEmail :: []) (some 2023)
        (some staffFilters)).2.2, x.filter_reason ≠ some "Staff") :=
  c5_staff_exemption baseEmail staffFilters (some 2023) [] []
    (by decide) (by decide) rfl rfl

/-- C6 counterexample: with filtering disabled, a year-mismatched record is
returned in the filtered bucket still carrying reason Incorrect Year; the
claimed removal of such records does not happen. -/
theorem c6_counterexample :
    (validate_and_sort_emails [baseEmail] (some 2022) none).2.2 =
      [incorrectYearMark baseEmail] ∧
    (incorrectYearMark baseEmail).filter_reason = some "Incorrect Year" := by
  decide

/-- C6 amended: the valid bucket is always sorted non-decreasingly by
parsed date; the bad_formats bucket is the encounter-ordered sublist of
malformed records; and when filtering is enabled the exported filtered
bucket is sorted non-decreasingly and contains no record with reason Staff
or Incorrect Year. When filtering is disabled the returned filtered bucket
is left as encountered, Incorrect Year records included. -/
theorem c6_sorted_buckets (l : List Email) (yr : Option Int)
    (fltO : Option Filters) :
    (validate_and_sort_emails l yr fltO).1.Pairwise
      (fun a b => dateKey a ≤ dateKey b) ∧
    (validate_and_sort_emails l yr fltO).2.1 =
      (match fltO with
        | some f => l.map (fun e => check_against_filters e f)
        | none => l).filter (fun e => !e.valid_date || !e.valid_headers) ∧
    (∀ f, fltO = some f →
      ((validate_and_sort_emails l yr fltO).2.2.Pairwise
          (fun a b => dateKey a ≤ dateKey b) ∧
       ∀ x ∈ (validate_and_sort_emails l yr fltO).2.2,
         x.filter_reason ≠ some "Staff" ∧
           x.filter_reason ≠ some "Incorrect Year")) := by
  refine ⟨?_, ?_, ?_⟩
  · cases fltO <;> exact sorted_sortByDate _
  · cases fltO <;> simp only [validate_and_sort_emails] <;>
      exact classifyLoop_bad_eq_filter _ _ _
  · intro f hf
    subst hf
    constructor
    · exact sorted_sortByDate _
    · intro x hx
      simp only [validate_and_sort_emails, Option.isSome_some] at hx
      rw [mem_sortByDate] at hx
      have hk := (List.mem_filter.mp hx).2
      simp only [keepInExport, Bool.and_eq_true, Bool.not_eq_eq_eq_not,
        Bool.not_true, decide_eq_false_iff_not] at hk
      exact hk

/-- C6 witness: the filtering-enabled part of the amended statement at a
concrete input. -/
theorem c6_sorted_buckets_witness :
    (validate_and_sort_emails [baseEmail] (some 2023)
        (some staffFilters)).2.2.Pairwise
      (fun a b => dateKey a ≤ dateKey b) ∧
    ∀ x ∈ (validate_and_sort_emails [baseEmail] (some 2023)
        (some staffFilters)).2.2,
      x.filter_reason ≠ some "Staff" ∧ x.filter_reason ≠ some "Incorrect Year" :=
  (c6_sorted_buckets [baseEmail] (some 2023) (some staffFilters)).2.2
    staffFilters rfl
